import Mathlib

/-!
Verification of `vaeseq/vae_module.py` (sequential-VAE orchestration core).

The file shallowly embeds the three operations of the module — `VAECore.evaluate`,
`VAECore.generate` and `_average_runs` — together with the external collaborators
they call.  Code of the repository that is not part of the given source
(`vaeseq/util.py`, `vaeseq/context.py`, `dist_module.py`) and the external driver
`tf.nn.dynamic_rnn` are modelled from the specification; each such definition is
marked `Modelled from the spec:` in its doc comment.

Tensors are modelled as a batch dimension together with a rational payload;
per-step sequences are time-major lists.  Graph construction is modelled
denotationally: each operation is a pure function from its arguments to the value
the built graph computes, and the call to a context's `drive_rnn` method at the
end of `generate` is represented by a record of the arguments handed to it
(`drive_rnn` itself is an external black box).
-/

namespace VaeSeq

/-- A tensor, reduced to the two attributes this module consults: the leading
batch dimension carried by its structure, and a rational payload standing for its
(flattened) contents. -/
structure Tensor where
  batch : Nat
  payload : ℚ
deriving DecidableEq

/-- A recurrent cell: a per-step transition function taking the step input and the
carried state to an output and a new state (the `cell(input, state)` protocol). -/
structure RNNCell (I O S : Type) where
  step : I → S → O × S

/-- Modelled from the spec: the external recurrent execution driver
(`tf.nn.dynamic_rnn`-equivalent, §6): given a cell, a time-major input sequence and
an initial state it runs the cell step by step, returning the per-step output
sequence and the final state. -/
def dynamic_rnn {I O S : Type} (cell : RNNCell I O S) (inputs : List I)
    (init : S) : List O × S :=
  match inputs with
  | [] => ([], init)
  | i :: rest =>
      let os := cell.step i init
      let tail := dynamic_rnn cell rest os.2
      (os.1 :: tail.1, tail.2)

/-- Modelled from the spec: `tf.reduce_mean(·, axis=0)` applied to a stack of runs —
the elementwise arithmetic mean along the leading (run) axis, discarding that axis.
Each run is a list of per-step scalar outputs; the empty stack reduces to the empty
tensor. -/
def reduceMean0 (runs : List (List ℚ)) : List ℚ :=
  match runs with
  | [] => []
  | r :: _ =>
      (List.range r.length).map fun i =>
        ((runs.map fun t => t.getD i 0).sum) / (runs.length : ℚ)

/-- `_average_runs(num_runs, cell, inputs, make_initial_state)` from
`vae_module.py`.  A single run is one driver invocation on the shared `inputs`,
with an initial state obtained by calling `make_initial_state`; the Python
zero-argument thunk is modelled as a function of the call index, so the `k`-th
call of the thunk is `make_initial_state k`.  For `num_runs == 1` the single run's
raw result is returned; otherwise `tf.map_fn` maps the run over `num_runs`
elements and `tf.reduce_mean` averages the stacked results along the new leading
run axis. -/
def average_runs {I S : Type} (num_runs : Int) (cell : RNNCell I ℚ S)
    (inputs : List I) (make_initial_state : Nat → S) : List ℚ :=
  let run := fun (k : Nat) => (dynamic_rnn cell inputs (make_initial_state k)).1
  if num_runs = 1 then run 0
  else reduceMean0 ((List.range num_runs.toNat).map run)

/-- A nested state, as threaded by contexts: either a single tensor-shaped state
(a leaf, carrying a batch dimension in its structure and a payload) or a tuple of
sub-states (as produced by chaining contexts). -/
inductive CState where
  | leaf : Nat → ℚ → CState
  | pair : CState → CState → CState
deriving DecidableEq

/-- Modelled from the spec: `util.batch_size_from_nested_tensors` applied to a
nested state structure (`util.py` is not in the given source) — extracts the batch
size carried by the structure, i.e. the batch dimension of the first tensor in the
flattened nest. -/
def batch_size_from_nested_state : CState → Nat
  | .leaf b _ => b
  | .pair a _ => batch_size_from_nested_state a

/-- Modelled from the spec: `util.batch_size_from_nested_tensors` applied to the
observed time-major tensor sequence — the batch dimension of the first tensor of
the nest (`0` for an empty nest, which the module never produces). -/
def batch_size_from_nested_tensors (observed : List Tensor) : Nat :=
  (observed.head?.map Tensor.batch).getD 0

/-- Modelled from the spec: the `Context` abstraction of `vaeseq/context.py`
(not in the given source).  A context is a stream generator with a per-batch
initial state; the variants are an opaque caller-supplied context (its
`initial_state` behaviour abstracted as a function), the `Constant` wrapper around
a fixed tensor, and the `Chain` composition of two sub-contexts (`generate` only
ever chains exactly two). -/
inductive Context where
  | base : (Nat → CState) → Context
  | constant : Tensor → Context
  | chain : Context → Context → Context

/-- Modelled from the spec: `Context.initial_state(batch_size)`.  An opaque
context uses its own behaviour; a `Constant` context carries no interesting state
(a leaf at the requested batch size); a `Chain` threads the sub-contexts' states
as a tuple. -/
def Context.initial_state : Context → Nat → CState
  | .base f, n => f n
  | .constant _, n => .leaf n 0
  | .chain a b, n => .pair (a.initial_state n) (b.initial_state n)

/-- Modelled from the spec: `util.use_recorded_state_rnn` (`util.py` is not in the
given source) — wraps a cell so that each step consumes an `(input, recorded_state)`
pair and runs the base cell from the recorded state, forcing deterministic replay
of a previously captured state sequence instead of using the carried state. -/
def use_recorded_state_rnn {I O S : Type} (cell : RNNCell I O S) :
    RNNCell (I × S) O S :=
  ⟨fun ir _carried => cell.step ir.1 ir.2⟩

/-- Modelled from the spec: `util.add_support_for_scalar_rnn_inputs` (`util.py` is
not in the given source) normalizes scalar-shaped per-step inputs to a uniform
rank.  Tensor ranks are not represented in this embedding, so the normalization is
the identity on the cell/inputs pair. -/
def add_support_for_scalar_rnn_inputs {I S : Type} (cell : RNNCell I ℚ S)
    (inputs : List I) : RNNCell I ℚ S × List I :=
  (cell, inputs)

/-- The hyperparameter bundle, restricted to the two defaults this module reads
(`util.batch_size(hparams)` and `util.sequence_size(hparams)` are plain lookups). -/
structure HParams where
  batch_size : Nat
  sequence_size : Nat

/-- The `VAECore` attributes the two concrete methods consult: the `log_probs`
cell (inherited from `dist_module.DistCore`, which is not in the given source; its
per-step behaviour is abstracted), and the core's own `initial_state(batch_size)`.
`Ctx` is the type of per-step conditioning inputs and `S` the cell state type. -/
structure VAECore (Ctx S : Type) where
  log_probs : RNNCell (Ctx × Tensor) ℚ S
  initial_state : Nat → S

/-- The `_make_initial_state` closure built inside `VAECore.evaluate`: return the
explicit `initial_state` when given, else derive the batch size from the observed
tensors and request a fresh initial state from the core. -/
def make_initial_state {Ctx S : Type} (core : VAECore Ctx S)
    (observed : List Tensor) (initial_state : Option S) : S :=
  match initial_state with
  | some s => s
  | none => core.initial_state (batch_size_from_nested_tensors observed)

/-- `VAECore.evaluate(contexts, observed, latents, initial_state, samples)` from
`vae_module.py`.  The synchronous `ValueError` is modelled as the `Except.error`
result.  With `latents` absent the cell is `log_probs` on the zipped
`(contexts, observed)` stream; with `latents` present the cell is the
recorded-state wrapper on the stream additionally zipped with the latents.  The
initial-state thunk is resolved per run by `average_runs` (the thunk ignores the
run index, as the Python closure takes no arguments). -/
def evaluate {Ctx S : Type} (core : VAECore Ctx S) (contexts : List Ctx)
    (observed : List Tensor) (latents : Option (List S))
    (initial_state : Option S) (samples : Int) : Except String (List ℚ) :=
  match latents with
  | none =>
      let ci := add_support_for_scalar_rnn_inputs core.log_probs
        (contexts.zip observed)
      .ok (average_runs samples ci.1 ci.2
        (fun _ => make_initial_state core observed initial_state))
  | some ls =>
      match initial_state with
      | some _ => .error "Cannot specify initial state and latents."
      | none =>
          let ci := add_support_for_scalar_rnn_inputs
            (use_recorded_state_rnn core.log_probs)
            ((contexts.zip observed).zip ls)
          .ok (average_runs samples ci.1 ci.2
            (fun _ => make_initial_state core observed none))

/-- The `inputs` argument of `VAECore.generate`: `None` is `Option.none` outside;
a non-`None` value is either a raw tensor-like value or already a `Context`. -/
inductive InputsArg where
  | tensors : Tensor → InputsArg
  | ctx : Context → InputsArg

/-- The `inputs`-normalization step of `VAECore.generate`: a raw tensor-like value
is wrapped as a `Constant` context ("Allow passing constant Tensors as inputs"); a
value that is already a context is used as such. -/
def wrap_constant : InputsArg → Context
  | .tensors t => .constant t
  | .ctx c => c

/-- The record of the arguments `VAECore.generate` hands to the external
`context.drive_rnn` driver call (the driver itself is an external black box, §6):
which context is driven, the resolved sequence size, the context's initial state
and the cell's initial state. -/
structure DriveCall (S : Type) where
  context : Context
  sequence_size : Nat
  initial_state : CState
  cell_initial_state : S

/-- `VAECore.generate(inputs, context, batch_size, sequence_size, initial_state,
inputs_initial_state, context_initial_state)` from `vae_module.py`, up to the
delegation to `context.drive_rnn`, whose argument record is returned.  Raw tensor
inputs are wrapped as a `Constant` context; the provisional batch size starts from
the caller's `batch_size` (else the hyperparameter default) and — only when the
caller's `batch_size` was unset — is re-derived from the structure of each initial
state computed here, in order; finally a present `inputs` context is chained in
front of `context` with the two initial states paired. -/
def generate {Ctx S : Type} (core : VAECore Ctx S) (hparams : HParams)
    (inputs : Option InputsArg) (context : Context) (batch_size : Option Nat)
    (sequence_size : Option Nat) (initial_state : Option S)
    (inputs_initial_state : Option CState)
    (context_initial_state : Option CState) : DriveCall S :=
  let sequence_size := sequence_size.getD hparams.sequence_size
  -- Allow passing constant Tensors as inputs.
  let inputs : Option Context := inputs.map wrap_constant
  -- Create initial states.
  let infer_batch_size := batch_size.getD hparams.batch_size
  let step_inputs : Option CState × Nat :=
    match inputs, inputs_initial_state with
    | some i, none =>
        let s := i.initial_state infer_batch_size
        (some s,
          if batch_size.isNone then batch_size_from_nested_state s
          else infer_batch_size)
    | _, _ => (inputs_initial_state, infer_batch_size)
  let inputs_initial_state := step_inputs.1
  let infer_batch_size := step_inputs.2
  let step_context : CState × Nat :=
    match context_initial_state with
    | none =>
        let s := context.initial_state infer_batch_size
        (s,
          if batch_size.isNone then batch_size_from_nested_state s
          else infer_batch_size)
    | some s => (s, infer_batch_size)
  let context_initial_state := step_context.1
  let infer_batch_size := step_context.2
  let initial_state := initial_state.getD (core.initial_state infer_batch_size)
  -- Chain inputs with context.
  match inputs with
  | some i =>
      { context := .chain i context
        sequence_size := sequence_size
        -- when `inputs` is present its initial state was supplied or just
        -- computed, so the default of this `getD` is never reached
        initial_state := .pair (inputs_initial_state.getD (.leaf 0 0))
          context_initial_state
        cell_initial_state := initial_state }
  | none =>
      { context := context
        sequence_size := sequence_size
        initial_state := context_initial_state
        cell_initial_state := initial_state }

/-! ### Helper lemmas -/

/-- The driver produces one output per input step. -/
lemma dynamic_rnn_length {I O S : Type} (cell : RNNCell I O S) (inputs : List I)
    (init : S) : (dynamic_rnn cell inputs init).1.length = inputs.length := by
  induction inputs generalizing init with
  | nil => rfl
  | cons i rest ih => simp [dynamic_rnn, ih]

/-- Under the recorded-state wrapper, each step's output is the base cell applied
to that step's input and recorded state; the carried state (and hence the driver's
initial state) never influences any output. -/
lemma dynamic_rnn_recorded {I O S : Type} (cell : RNNCell I O S)
    (ps : List (I × S)) (init : S) :
    (dynamic_rnn (use_recorded_state_rnn cell) ps init).1 =
      ps.map fun p => (cell.step p.1 p.2).1 := by
  induction ps generalizing init with
  | nil => rfl
  | cons p rest ih =>
      simp only [use_recorded_state_rnn] at ih ⊢
      simp [dynamic_rnn, ih]

/-- Entry `i` of the reduced stack is the arithmetic mean of the entries `i` of
the stacked runs, provided all runs have the same length `L > i`. -/
lemma reduceMean0_getD (runs : List (List ℚ)) (L i : Nat) (hne : runs ≠ [])
    (hL : ∀ r ∈ runs, r.length = L) (hi : i < L) :
    (reduceMean0 runs).getD i 0 =
      ((runs.map fun t => t.getD i 0).sum) / (runs.length : ℚ) := by
  match runs with
  | [] => exact absurd rfl hne
  | r :: rest =>
      have hr : r.length = L := hL r (List.mem_cons_self r rest)
      simp only [reduceMean0]
      rw [List.getD_eq_getElem?_getD, List.getElem?_map, List.getElem?_range
        (by omega : i < r.length)]
      rfl

/-! ### Concrete fixtures used by witness theorems -/

/-- A concrete deterministic cell over rational inputs/states. -/
def exCell : RNNCell ℚ ℚ ℚ :=
  ⟨fun i s => (i + s, s)⟩

/-- A concrete initial-state producer recording the call index. -/
def exMk : Nat → ℚ := fun k => (k : ℚ)

/-- A concrete `VAECore` over unit conditioning inputs and nested states. -/
def exCore : VAECore Unit CState :=
  ⟨⟨fun _ s => (0, s)⟩, fun n => .leaf n 0⟩

/-! ### Claims -/

/-- C1: `VAECore.evaluate` raises the configuration `ValueError` (modelled as the
`Except.error` result, raised synchronously at call time) if and only if both
`latents` and `initial_state` are non-`None`, for every value of `contexts`,
`observed` and `samples`; when at most one of the two is supplied the call
returns normally. -/
theorem evaluate_mutual_exclusivity {Ctx S : Type} (core : VAECore Ctx S)
    (contexts : List Ctx) (observed : List Tensor) (latents : Option (List S))
    (initial_state : Option S) (samples : Int) :
    (evaluate core contexts observed latents initial_state samples =
        .error "Cannot specify initial state and latents." ↔
      latents ≠ none ∧ initial_state ≠ none) ∧
    (latents = none ∨ initial_state = none →
      ∃ r, evaluate core contexts observed latents initial_state samples = .ok r) := by
  cases latents <;> cases initial_state <;> simp [evaluate]

/-- Witness for C1 at concrete arguments: with both `latents` and `initial_state`
supplied the configuration error is returned. -/
theorem evaluate_mutual_exclusivity_witness :
    (evaluate exCore [] [] (some []) (some (.leaf 1 0)) 1 =
        .error "Cannot specify initial state and latents." ↔
      some ([] : List CState) ≠ none ∧ some (CState.leaf 1 0) ≠ none) ∧
    (some ([] : List CState) = none ∨ some (CState.leaf 1 0) = none →
      ∃ r, evaluate exCore [] [] (some []) (some (.leaf 1 0)) 1 = .ok r) :=
  evaluate_mutual_exclusivity exCore [] [] (some []) (some (.leaf 1 0)) 1

/-- C2: `_average_runs(1, cell, inputs, make_initial_state)` is exactly one direct
driver invocation on `inputs` with the initial state produced by the single call
of `make_initial_state` — no averaging, no added leading run axis. -/
theorem average_runs_single {I S : Type} (cell : RNNCell I ℚ S) (inputs : List I)
    (make_initial_state : Nat → S) :
    average_runs 1 cell inputs make_initial_state =
      (dynamic_rnn cell inputs (make_initial_state 0)).1 := by
  simp [average_runs]

/-- C5: `generate` with `inputs=None` never chains: the driven context is the
caller-supplied context itself, and its initial state is the caller-supplied one
(or the one derived from it), not a tuple built here. -/
theorem generate_no_inputs {Ctx S : Type} (core : VAECore Ctx S) (hp : HParams)
    (context : Context) (batch_size : Option Nat) (sequence_size : Option Nat)
    (initial_state : Option S) (iis cis : Option CState) :
    (generate core hp none context batch_size sequence_size
        initial_state iis cis).context = context ∧
    (generate core hp none context batch_size sequence_size
        initial_state iis cis).initial_state =
      cis.getD (context.initial_state (batch_size.getD hp.batch_size)) := by
  cases cis <;> simp [generate]

/-- C6: `generate` with `inputs` non-`None` wraps a raw tensor as a `Constant`
context, drives a `Chain` of `[inputs, context]`, and pairs the two initial
states as `(inputs_initial_state, context_initial_state)` in that order — both
when the two states are caller-supplied and when they are derived here. -/
theorem generate_chains_inputs {Ctx S : Type} (core : VAECore Ctx S) (hp : HParams)
    (a : InputsArg) (context : Context) (bs ss : Option Nat) (ist : Option S)
    (iis cis : Option CState) (x y : CState) (n : Nat) (t : Tensor) :
    wrap_constant (.tensors t) = .constant t ∧
    (generate core hp (some a) context bs ss ist iis cis).context =
      .chain (wrap_constant a) context ∧
    (generate core hp (some a) context bs ss ist (some x) (some y)).initial_state =
      .pair x y ∧
    (generate core hp (some a) context (some n) ss ist none none).initial_state =
      .pair ((wrap_constant a).initial_state n) (context.initial_state n) := by
  refine ⟨rfl, ?_, ?_, ?_⟩
  · cases iis <;> cases cis <;> simp [generate]
  · simp [generate]
  · simp [generate]

/-- C10: `_average_runs` performs no validation of `num_runs`: every value other
than exactly `1` (including `0` and negatives) takes the stack-and-mean path, and
`_average_runs(0, ...)` returns without any error from this layer, its mean taken
over an empty stack of runs (the embedding is total precisely because the source
function contains no validation or raise). -/
theorem average_runs_no_validation {I S : Type} (cell : RNNCell I ℚ S)
    (inputs : List I) (mk : Nat → S) (num_runs : Int) (h : num_runs ≠ 1) :
    average_runs num_runs cell inputs mk =
      reduceMean0 ((List.range num_runs.toNat).map fun k =>
        (dynamic_rnn cell inputs (mk k)).1) ∧
    average_runs 0 cell inputs mk = reduceMean0 [] := by
  constructor
  · simp [average_runs, h]
  · simp [average_runs, reduceMean0]

/-- Witness for C10 at `num_runs = 0` with a concrete cell: the zero-run case
goes through the stack-and-mean path. -/
theorem average_runs_no_validation_witness :
    (0 : Int) ≠ 1 ∧
    (average_runs 0 exCell [1, 2] exMk =
        reduceMean0 ((List.range (0 : Int).toNat).map fun k =>
          (dynamic_rnn exCell [1, 2] (exMk k)).1) ∧
      average_runs 0 exCell [1, 2] exMk = reduceMean0 []) :=
  ⟨by decide, average_runs_no_validation exCell [1, 2] exMk 0 (by decide)⟩

/-- C3: for `num_runs = N > 1`, `_average_runs` reduces by `reduceMean0` the stack
of the `N` per-run driver outputs, run `k` using the `k`-th call of
`make_initial_state` (so the thunk is called exactly `N` times, at call indices
`0..N-1`) and the unchanged shared `inputs`; the stack has exactly `N` entries and
each entry of the result is the elementwise arithmetic mean, over the `N` runs, of
the per-run outputs, the run axis being discarded. -/
theorem average_runs_multi {I S : Type} (cell : RNNCell I ℚ S) (inputs : List I)
    (mk : Nat → S) (N : Int) (hN : 1 < N) :
    average_runs N cell inputs mk =
      reduceMean0 ((List.range N.toNat).map fun k =>
        (dynamic_rnn cell inputs (mk k)).1) ∧
    ((List.range N.toNat).map fun k =>
        (dynamic_rnn cell inputs (mk k)).1).length = N.toNat ∧
    ∀ i < inputs.length,
      (average_runs N cell inputs mk).getD i 0 =
        ((List.range N.toNat).map fun k =>
          (dynamic_rnn cell inputs (mk k)).1.getD i 0).sum / (N.toNat : ℚ) := by
  have h1 : N ≠ 1 := by omega
  have heq : average_runs N cell inputs mk =
      reduceMean0 ((List.range N.toNat).map fun k =>
        (dynamic_rnn cell inputs (mk k)).1) := by
    simp [average_runs, h1]
  refine ⟨heq, by simp, ?_⟩
  intro i hi
  rw [heq, reduceMean0_getD _ inputs.length i ?_ ?_ hi]
  · rw [List.map_map, List.length_map, List.length_range]
    rfl
  · have : N.toNat ≠ 0 := by omega
    simp [List.map_eq_nil_iff, List.range_eq_nil, this]
  · intro r hr
    simp only [List.mem_map] at hr
    obtain ⟨k, _, rfl⟩ := hr
    exact dynamic_rnn_length cell inputs (mk k)

/-- Witness for C3 at `N = 2` with a concrete deterministic cell and an
index-recording initial-state producer. -/
theorem average_runs_multi_witness :
    (1 : Int) < 2 ∧
    (average_runs 2 exCell [1, 2] exMk =
        reduceMean0 ((List.range (2 : Int).toNat).map fun k =>
          (dynamic_rnn exCell [1, 2] (exMk k)).1) ∧
      ((List.range (2 : Int).toNat).map fun k =>
          (dynamic_rnn exCell [1, 2] (exMk k)).1).length = (2 : Int).toNat ∧
      ∀ i < ([1, 2] : List ℚ).length,
        (average_runs 2 exCell [1, 2] exMk).getD i 0 =
          ((List.range (2 : Int).toNat).map fun k =>
            (dynamic_rnn exCell [1, 2] (exMk k)).1.getD i 0).sum /
            (((2 : Int).toNat : ℚ))) :=
  ⟨by decide, average_runs_multi exCell [1, 2] exMk 2 (by decide)⟩

/-- C4: in `generate` with `batch_size=None` the provisional batch size starts at
the hyperparameter default and is re-derived from the structure of the inputs
initial state when that state is computed here (and then again from the context
initial state): when the inputs context's state structure implies batch size `B`
(and the context's own state derived at `B` also carries `B`), both the derived
context initial state and the core's own initial state use `B`.  With an explicit
`batch_size = n`, every derivation uses `n` and no structure-based re-derivation
occurs; with a caller-supplied inputs initial state, no re-derivation from it
happens and the context state is derived at the hyperparameter default. -/
theorem generate_batch_size_inference {Ctx S : Type} (core : VAECore Ctx S)
    (hp : HParams) (f : Nat → CState) (context : Context) (B n : Nat)
    (siis : CState)
    (hB : batch_size_from_nested_state (f hp.batch_size) = B)
    (hC : batch_size_from_nested_state (context.initial_state B) = B) :
    generate core hp (some (.ctx (.base f))) context none none none none none =
      { context := .chain (.base f) context
        sequence_size := hp.sequence_size
        initial_state := .pair (f hp.batch_size) (context.initial_state B)
        cell_initial_state := core.initial_state B } ∧
    generate core hp (some (.ctx (.base f))) context (some n) none none none none =
      { context := .chain (.base f) context
        sequence_size := hp.sequence_size
        initial_state := .pair (f n) (context.initial_state n)
        cell_initial_state := core.initial_state n } ∧
    generate core hp (some (.ctx (.base f))) context none none none
        (some siis) none =
      { context := .chain (.base f) context
        sequence_size := hp.sequence_size
        initial_state := .pair siis (context.initial_state hp.batch_size)
        cell_initial_state := core.initial_state
          (batch_size_from_nested_state (context.initial_state hp.batch_size)) } := by
  refine ⟨?_, ?_, ?_⟩ <;>
    simp [generate, wrap_constant, Context.initial_state, hB, hC]

/-- Witness for C4: a concrete inputs context whose initial-state structure
implies batch size 5 propagates 5 into the context and core initial states. -/
theorem generate_batch_size_inference_witness :
    batch_size_from_nested_state ((fun _ => CState.leaf 5 1) (4 : Nat)) = 5 ∧
    batch_size_from_nested_state
      ((Context.base fun m => CState.leaf m 2).initial_state 5) = 5 ∧
    (generate exCore ⟨4, 7⟩ (some (.ctx (.base fun _ => CState.leaf 5 1)))
        (.base fun m => CState.leaf m 2) none none none none none =
      { context := .chain (.base fun _ => CState.leaf 5 1)
          (.base fun m => CState.leaf m 2)
        sequence_size := (7 : Nat)
        initial_state := .pair ((fun _ => CState.leaf 5 1) (4 : Nat))
          ((Context.base fun m => CState.leaf m 2).initial_state 5)
        cell_initial_state := exCore.initial_state 5 } ∧
    generate exCore ⟨4, 7⟩ (some (.ctx (.base fun _ => CState.leaf 5 1)))
        (.base fun m => CState.leaf m 2) (some 9) none none none none =
      { context := .chain (.base fun _ => CState.leaf 5 1)
          (.base fun m => CState.leaf m 2)
        sequence_size := (7 : Nat)
        initial_state := .pair ((fun _ => CState.leaf 5 1) (9 : Nat))
          ((Context.base fun m => CState.leaf m 2).initial_state 9)
        cell_initial_state := exCore.initial_state 9 } ∧
    generate exCore ⟨4, 7⟩ (some (.ctx (.base fun _ => CState.leaf 5 1)))
        (.base fun m => CState.leaf m 2) none none none
        (some (.leaf 8 3)) none =
      { context := .chain (.base fun _ => CState.leaf 5 1)
          (.base fun m => CState.leaf m 2)
        sequence_size := (7 : Nat)
        initial_state := .pair (.leaf 8 3)
          ((Context.base fun m => CState.leaf m 2).initial_state 4)
        cell_initial_state := exCore.initial_state
          (batch_size_from_nested_state
            ((Context.base fun m => CState.leaf m 2).initial_state 4)) }) :=
  ⟨by decide, by decide,
    generate_batch_size_inference exCore ⟨4, 7⟩ (fun _ => CState.leaf 5 1)
      (.base fun m => CState.leaf m 2) 5 9 (.leaf 8 3) (by decide) (by decide)⟩

/-- C7: `evaluate` with `latents` supplied (and `initial_state` absent) runs the
recorded-state wrapper of the core's `log_probs` cell on the original
`(contexts, observed)` inputs paired with the latents; with `latents` absent it
runs the unwrapped `log_probs` cell on `(contexts, observed)`.  Under the
wrapper, every step's output is the base cell applied to the step's recorded
latent — independent of the driver's initial state and of any carried state, so
the given latent is replayed instead of a fresh one being produced. -/
theorem evaluate_latents_replay {Ctx S : Type} (core : VAECore Ctx S)
    (contexts : List Ctx) (observed : List Tensor) (ls : List S)
    (ist : Option S) (samples : Int) :
    evaluate core contexts observed (some ls) none samples =
      .ok (average_runs samples (use_recorded_state_rnn core.log_probs)
        ((contexts.zip observed).zip ls)
        (fun _ => make_initial_state core observed none)) ∧
    evaluate core contexts observed none ist samples =
      .ok (average_runs samples core.log_probs (contexts.zip observed)
        (fun _ => make_initial_state core observed ist)) ∧
    ∀ (init : S) (ps : List ((Ctx × Tensor) × S)),
      (dynamic_rnn (use_recorded_state_rnn core.log_probs) ps init).1 =
        ps.map fun p => (core.log_probs.step p.1 p.2).1 :=
  ⟨rfl, rfl, fun init ps => dynamic_rnn_recorded core.log_probs ps init⟩

/-- C8: the initial state of each `evaluate` run is resolved by the
`_make_initial_state` thunk handed to `_average_runs`: the explicit
`initial_state` when given, else a fresh state requested from the core at the
batch size derived from the observed tensors' structure; when the explicit state
is given the resolution never consults `observed`. -/
theorem evaluate_initial_state_resolution {Ctx S : Type} (core : VAECore Ctx S)
    (contexts : List Ctx) (observed observed2 : List Tensor) (s : S)
    (ist : Option S) (samples : Int) (ls : List S) :
    make_initial_state core observed (some s) = s ∧
    make_initial_state core observed none =
      core.initial_state (batch_size_from_nested_tensors observed) ∧
    make_initial_state core observed (some s) =
      make_initial_state core observed2 (some s) ∧
    evaluate core contexts observed none ist samples =
      .ok (average_runs samples core.log_probs (contexts.zip observed)
        (fun _ => make_initial_state core observed ist)) ∧
    evaluate core contexts observed (some ls) none samples =
      .ok (average_runs samples (use_recorded_state_rnn core.log_probs)
        ((contexts.zip observed).zip ls)
        (fun _ => make_initial_state core observed none)) :=
  ⟨rfl, rfl, rfl, rfl, rfl⟩

/-- C9: `generate` performs no consistency check across batch-size sources:
with caller-supplied inputs, context and cell initial states whose implied batch
sizes are pairwise different (and different from the hyperparameter default), all
three are passed through to the driver call unchanged. -/
theorem generate_no_batch_validation {Ctx S : Type} (core : VAECore Ctx S)
    (hp : HParams) (a : InputsArg) (context : Context) (st : S)
    (iis cis : CState)
    (_h1 : batch_size_from_nested_state iis ≠ batch_size_from_nested_state cis)
    (_h2 : batch_size_from_nested_state iis ≠ hp.batch_size)
    (_h3 : batch_size_from_nested_state cis ≠ hp.batch_size) :
    generate core hp (some a) context none none (some st) (some iis) (some cis) =
      { context := .chain (wrap_constant a) context
        sequence_size := hp.sequence_size
        initial_state := .pair iis cis
        cell_initial_state := st } := by
  simp [generate]

/-- Witness for C9: heterogeneous batch sizes 1, 2 and 4 pass through silently. -/
theorem generate_no_batch_validation_witness :
    batch_size_from_nested_state (.leaf 1 0) ≠
      batch_size_from_nested_state (.leaf 2 0) ∧
    batch_size_from_nested_state (CState.leaf 1 0) ≠ (4 : Nat) ∧
    batch_size_from_nested_state (CState.leaf 2 0) ≠ (4 : Nat) ∧
    generate exCore ⟨4, 7⟩ (some (.tensors ⟨6, 0⟩)) (.base fun m => CState.leaf m 2)
        none none (some (.leaf 3 0)) (some (.leaf 1 0)) (some (.leaf 2 0)) =
      { context := .chain (wrap_constant (.tensors ⟨6, 0⟩))
          (.base fun m => CState.leaf m 2)
        sequence_size := (7 : Nat)
        initial_state := .pair (.leaf 1 0) (.leaf 2 0)
        cell_initial_state := .leaf 3 0 } :=
  ⟨by decide, by decide, by decide,
    generate_no_batch_validation exCore ⟨4, 7⟩ (.tensors ⟨6, 0⟩)
      (.base fun m => CState.leaf m 2) (.leaf 3 0) (.leaf 1 0) (.leaf 2 0)
      (by decide) (by decide) (by decide)⟩

end VaeSeq
